import Mathlib

/-!
Verification of `Sources/CHDF5/shim.h` from open-meteo/swift-hdf5.

The header defines 21 `static inline` accessor functions, each of which
returns one HDF5 library macro constant (file-access flags, dataspace
class tags, the default property list, the select-all marker, native
numeric type identifiers, and the C-string type identifier).

The HDF5 library itself (hdf5.h) is external to the repository, so the
values of the wrapped constants are modelled as an abstract environment
assigning an integer value to each constant name.  The shim is embedded
twice, and the two embeddings are proved to agree:

* a direct shallow embedding: one Lean function per C function, taking
  the environment and returning the constant's value (with the C
  return-statement conversion to the declared return type made explicit);
* a syntactic model: an enumeration of the 21 accessors together with a
  declaration table recording each function's name, parameter list,
  return type and body in a tiny statement language, plus a fueled
  executor.  The statement language deliberately also contains loop and
  intra-shim call constructs, so that "every body is a single return
  statement" is a non-vacuous property of the transcription.

Process-global state is modelled by an arbitrary type `σ` threaded
through the executor; an accessor that performed I/O, allocation or any
global mutation would have to transform it.
-/

/-- The HDF5 library constants wrapped by the shim, one name per macro
appearing in a function body of `shim.h`. -/
inductive HConstName where
  | H5F_ACC_RDONLY | H5F_ACC_RDWR | H5F_ACC_TRUNC | H5F_ACC_EXCL
  | H5S_SCALAR | H5S_SIMPLE | H5S_NULL
  | H5P_DEFAULT
  | H5S_ALL
  | H5T_NATIVE_INT8 | H5T_NATIVE_INT16 | H5T_NATIVE_INT32 | H5T_NATIVE_INT64
  | H5T_NATIVE_UINT8 | H5T_NATIVE_UINT16 | H5T_NATIVE_UINT32 | H5T_NATIVE_UINT64
  | H5T_NATIVE_FLOAT | H5T_NATIVE_DOUBLE | H5T_NATIVE_CHAR
  | H5T_C_S1
deriving DecidableEq, Fintype, Repr

/-- The three C return types appearing in `shim.h`: `unsigned int`,
`H5S_class_t` (a C enum, backed by `int`), and `hid_t` (`int64_t`). -/
inductive CType where
  | unsigned_int
  | h5s_class
  | hid_t
deriving DecidableEq, Fintype, Repr

/-- The set of integer values representable in each C type
(`unsigned int` is 32-bit, the enum is backed by 32-bit `int`,
`hid_t` is `int64_t`). -/
def typeRange : CType → Int → Prop
  | CType.unsigned_int, v => 0 ≤ v ∧ v < 4294967296
  | CType.h5s_class, v => -2147483648 ≤ v ∧ v < 2147483648
  | CType.hid_t, v => -9223372036854775808 ≤ v ∧ v < 9223372036854775808

instance (t : CType) (v : Int) : Decidable (typeRange t v) := by
  cases t <;> exact instDecidableAnd

/-- C conversion of an integer value to a given type (the conversion a
`return` statement performs): modular wrap-around to the type's width. -/
def truncToType : CType → Int → Int
  | CType.unsigned_int, v => v % 4294967296
  | CType.h5s_class, v => (v + 2147483648) % 4294967296 - 2147483648
  | CType.hid_t, v => (v + 9223372036854775808) % 18446744073709551616 - 9223372036854775808

/-- Modelled from the spec: the values of the wrapped HDF5 constants are
defined by the external HDF5 headers, which are not part of this
repository; they are modelled as an arbitrary assignment of an integer
value to each constant name ("the underlying constant is a compile-time
value, not a runtime resource"). -/
abbrev HDF5Env := HConstName → Int

/-- Modelled from the spec: the native C type of each wrapped constant,
following the spec's table ("unsigned integer for flags, enumerated tag
for dataspace class, identifier-sized integer for handles") and HDF5's
declarations, which are external to the repository. -/
def nativeCType : HConstName → CType
  | HConstName.H5F_ACC_RDONLY => CType.unsigned_int
  | HConstName.H5F_ACC_RDWR => CType.unsigned_int
  | HConstName.H5F_ACC_TRUNC => CType.unsigned_int
  | HConstName.H5F_ACC_EXCL => CType.unsigned_int
  | HConstName.H5S_SCALAR => CType.h5s_class
  | HConstName.H5S_SIMPLE => CType.h5s_class
  | HConstName.H5S_NULL => CType.h5s_class
  | HConstName.H5P_DEFAULT => CType.hid_t
  | HConstName.H5S_ALL => CType.hid_t
  | HConstName.H5T_NATIVE_INT8 => CType.hid_t
  | HConstName.H5T_NATIVE_INT16 => CType.hid_t
  | HConstName.H5T_NATIVE_INT32 => CType.hid_t
  | HConstName.H5T_NATIVE_INT64 => CType.hid_t
  | HConstName.H5T_NATIVE_UINT8 => CType.hid_t
  | HConstName.H5T_NATIVE_UINT16 => CType.hid_t
  | HConstName.H5T_NATIVE_UINT32 => CType.hid_t
  | HConstName.H5T_NATIVE_UINT64 => CType.hid_t
  | HConstName.H5T_NATIVE_FLOAT => CType.hid_t
  | HConstName.H5T_NATIVE_DOUBLE => CType.hid_t
  | HConstName.H5T_NATIVE_CHAR => CType.hid_t
  | HConstName.H5T_C_S1 => CType.hid_t

/-- An environment is well typed when every constant's value lies in the
range of its native C type (true of any actual HDF5 build). -/
def WellTyped (env : HDF5Env) : Prop :=
  ∀ m : HConstName, typeRange (nativeCType m) (env m)

instance (env : HDF5Env) : Decidable (WellTyped env) :=
  Fintype.decidableForallFintype

/- Direct shallow embedding of the 21 functions of `shim.h`.  Each C body
is `return MACRO;`; the `return` conversion to the declared return type is
made explicit with `truncToType`. -/

/-- `static inline unsigned int hdf5_get_f_acc_rdonly(void) { return H5F_ACC_RDONLY; }` -/
def hdf5_get_f_acc_rdonly (env : HDF5Env) : Int :=
  truncToType CType.unsigned_int (env HConstName.H5F_ACC_RDONLY)

/-- `static inline unsigned int hdf5_get_f_acc_rdwr(void) { return H5F_ACC_RDWR; }` -/
def hdf5_get_f_acc_rdwr (env : HDF5Env) : Int :=
  truncToType CType.unsigned_int (env HConstName.H5F_ACC_RDWR)

/-- `static inline unsigned int hdf5_get_f_acc_trunc(void) { return H5F_ACC_TRUNC; }` -/
def hdf5_get_f_acc_trunc (env : HDF5Env) : Int :=
  truncToType CType.unsigned_int (env HConstName.H5F_ACC_TRUNC)

/-- `static inline unsigned int hdf5_get_f_acc_excl(void) { return H5F_ACC_EXCL; }` -/
def hdf5_get_f_acc_excl (env : HDF5Env) : Int :=
  truncToType CType.unsigned_int (env HConstName.H5F_ACC_EXCL)

/-- `static inline H5S_class_t hdf5_get_s_scalar(void) { return H5S_SCALAR; }` -/
def hdf5_get_s_scalar (env : HDF5Env) : Int :=
  truncToType CType.h5s_class (env HConstName.H5S_SCALAR)

/-- `static inline H5S_class_t hdf5_get_s_simple(void) { return H5S_SIMPLE; }` -/
def hdf5_get_s_simple (env : HDF5Env) : Int :=
  truncToType CType.h5s_class (env HConstName.H5S_SIMPLE)

/-- `static inline H5S_class_t hdf5_get_s_null(void) { return H5S_NULL; }` -/
def hdf5_get_s_null (env : HDF5Env) : Int :=
  truncToType CType.h5s_class (env HConstName.H5S_NULL)

/-- `static inline hid_t hdf5_get_p_default(void) { return H5P_DEFAULT; }` -/
def hdf5_get_p_default (env : HDF5Env) : Int :=
  truncToType CType.hid_t (env HConstName.H5P_DEFAULT)

/-- `static inline hid_t hdf5_get_s_all(void) { return H5S_ALL; }` -/
def hdf5_get_s_all (env : HDF5Env) : Int :=
  truncToType CType.hid_t (env HConstName.H5S_ALL)

/-- `static inline hid_t hdf5_get_native_int8(void) { return H5T_NATIVE_INT8; }` -/
def hdf5_get_native_int8 (env : HDF5Env) : Int :=
  truncToType CType.hid_t (env HConstName.H5T_NATIVE_INT8)

/-- `static inline hid_t hdf5_get_native_int16(void) { return H5T_NATIVE_INT16; }` -/
def hdf5_get_native_int16 (env : HDF5Env) : Int :=
  truncToType CType.hid_t (env HConstName.H5T_NATIVE_INT16)

/-- `static inline hid_t hdf5_get_native_int32(void) { return H5T_NATIVE_INT32; }` -/
def hdf5_get_native_int32 (env : HDF5Env) : Int :=
  truncToType CType.hid_t (env HConstName.H5T_NATIVE_INT32)

/-- `static inline hid_t hdf5_get_native_int64(void) { return H5T_NATIVE_INT64; }` -/
def hdf5_get_native_int64 (env : HDF5Env) : Int :=
  truncToType CType.hid_t (env HConstName.H5T_NATIVE_INT64)

/-- `static inline hid_t hdf5_get_native_uint8(void) { return H5T_NATIVE_UINT8; }` -/
def hdf5_get_native_uint8 (env : HDF5Env) : Int :=
  truncToType CType.hid_t (env HConstName.H5T_NATIVE_UINT8)

/-- `static inline hid_t hdf5_get_native_uint16(void) { return H5T_NATIVE_UINT16; }` -/
def hdf5_get_native_uint16 (env : HDF5Env) : Int :=
  truncToType CType.hid_t (env HConstName.H5T_NATIVE_UINT16)

/-- `static inline hid_t hdf5_get_native_uint32(void) { return H5T_NATIVE_UINT32; }` -/
def hdf5_get_native_uint32 (env : HDF5Env) : Int :=
  truncToType CType.hid_t (env HConstName.H5T_NATIVE_UINT32)

/-- `static inline hid_t hdf5_get_native_uint64(void) { return H5T_NATIVE_UINT64; }` -/
def hdf5_get_native_uint64 (env : HDF5Env) : Int :=
  truncToType CType.hid_t (env HConstName.H5T_NATIVE_UINT64)

/-- `static inline hid_t hdf5_get_native_float(void) { return H5T_NATIVE_FLOAT; }` -/
def hdf5_get_native_float (env : HDF5Env) : Int :=
  truncToType CType.hid_t (env HConstName.H5T_NATIVE_FLOAT)

/-- `static inline hid_t hdf5_get_native_double(void) { return H5T_NATIVE_DOUBLE; }` -/
def hdf5_get_native_double (env : HDF5Env) : Int :=
  truncToType CType.hid_t (env HConstName.H5T_NATIVE_DOUBLE)

/-- `static inline hid_t hdf5_get_native_char(void) { return H5T_NATIVE_CHAR; }` -/
def hdf5_get_native_char (env : HDF5Env) : Int :=
  truncToType CType.hid_t (env HConstName.H5T_NATIVE_CHAR)

/-- `static inline hid_t hdf5_get_c_s1(void) { return H5T_C_S1; }` -/
def hdf5_get_c_s1 (env : HDF5Env) : Int :=
  truncToType CType.hid_t (env HConstName.H5T_C_S1)

/-- The 21 accessor functions of `shim.h`, one constructor per function,
in source order. -/
inductive Accessor where
  | f_acc_rdonly | f_acc_rdwr | f_acc_trunc | f_acc_excl
  | s_scalar | s_simple | s_null
  | p_default
  | s_all
  | native_int8 | native_int16 | native_int32 | native_int64
  | native_uint8 | native_uint16 | native_uint32 | native_uint64
  | native_float | native_double | native_char
  | c_s1
deriving DecidableEq, Fintype, Repr

/-- The comment-delimited sections of `shim.h`, used as accessor
categories. -/
inductive AccCategory where
  | fileAccessFlag
  | dataspaceClass
  | propertyList
  | dataspaceSelection
  | nativeType
  | stringType
deriving DecidableEq, Fintype, Repr

/-- Expressions occurring in `shim.h` function bodies: every body's sole
expression is a reference to one library constant. -/
inductive CExpr where
  | constRef (m : HConstName)
deriving DecidableEq, Repr

/-- A fragment of C statements large enough to transcribe `shim.h` and to
make its absence of control flow expressible: a body could in principle
be a `while` loop or a (tail) call to another shim function, but every
actual body turns out to be a single `return`. -/
inductive CStmt where
  | ret (e : CExpr)
  | whileLoop (cond : CExpr) (body : CStmt)
  | tailCall (a : Accessor)
deriving DecidableEq, Repr

/-- A function declaration of `shim.h`: its C identifier, parameter type
list (`(void)` gives `[]`), declared return type and body. -/
structure CDecl where
  name : String
  params : List CType
  retType : CType
  body : CStmt
deriving DecidableEq, Repr

/-- The constant wrapped by each accessor, read off the function bodies
of `shim.h`. -/
def constOf : Accessor → HConstName
  | Accessor.f_acc_rdonly => HConstName.H5F_ACC_RDONLY
  | Accessor.f_acc_rdwr => HConstName.H5F_ACC_RDWR
  | Accessor.f_acc_trunc => HConstName.H5F_ACC_TRUNC
  | Accessor.f_acc_excl => HConstName.H5F_ACC_EXCL
  | Accessor.s_scalar => HConstName.H5S_SCALAR
  | Accessor.s_simple => HConstName.H5S_SIMPLE
  | Accessor.s_null => HConstName.H5S_NULL
  | Accessor.p_default => HConstName.H5P_DEFAULT
  | Accessor.s_all => HConstName.H5S_ALL
  | Accessor.native_int8 => HConstName.H5T_NATIVE_INT8
  | Accessor.native_int16 => HConstName.H5T_NATIVE_INT16
  | Accessor.native_int32 => HConstName.H5T_NATIVE_INT32
  | Accessor.native_int64 => HConstName.H5T_NATIVE_INT64
  | Accessor.native_uint8 => HConstName.H5T_NATIVE_UINT8
  | Accessor.native_uint16 => HConstName.H5T_NATIVE_UINT16
  | Accessor.native_uint32 => HConstName.H5T_NATIVE_UINT32
  | Accessor.native_uint64 => HConstName.H5T_NATIVE_UINT64
  | Accessor.native_float => HConstName.H5T_NATIVE_FLOAT
  | Accessor.native_double => HConstName.H5T_NATIVE_DOUBLE
  | Accessor.native_char => HConstName.H5T_NATIVE_CHAR
  | Accessor.c_s1 => HConstName.H5T_C_S1

/-- Transcription of the 21 declarations of `shim.h`: identifier,
`(void)` parameter list, declared return type, and body
`return <constant>;`. -/
def shimDecl : Accessor → CDecl
  | Accessor.f_acc_rdonly =>
    ⟨"hdf5_get_f_acc_rdonly", [], CType.unsigned_int,
      CStmt.ret (CExpr.constRef HConstName.H5F_ACC_RDONLY)⟩
  | Accessor.f_acc_rdwr =>
    ⟨"hdf5_get_f_acc_rdwr", [], CType.unsigned_int,
      CStmt.ret (CExpr.constRef HConstName.H5F_ACC_RDWR)⟩
  | Accessor.f_acc_trunc =>
    ⟨"hdf5_get_f_acc_trunc", [], CType.unsigned_int,
      CStmt.ret (CExpr.constRef HConstName.H5F_ACC_TRUNC)⟩
  | Accessor.f_acc_excl =>
    ⟨"hdf5_get_f_acc_excl", [], CType.unsigned_int,
      CStmt.ret (CExpr.constRef HConstName.H5F_ACC_EXCL)⟩
  | Accessor.s_scalar =>
    ⟨"hdf5_get_s_scalar", [], CType.h5s_class,
      CStmt.ret (CExpr.constRef HConstName.H5S_SCALAR)⟩
  | Accessor.s_simple =>
    ⟨"hdf5_get_s_simple", [], CType.h5s_class,
      CStmt.ret (CExpr.constRef HConstName.H5S_SIMPLE)⟩
  | Accessor.s_null =>
    ⟨"hdf5_get_s_null", [], CType.h5s_class,
      CStmt.ret (CExpr.constRef HConstName.H5S_NULL)⟩
  | Accessor.p_default =>
    ⟨"hdf5_get_p_default", [], CType.hid_t,
      CStmt.ret (CExpr.constRef HConstName.H5P_DEFAULT)⟩
  | Accessor.s_all =>
    ⟨"hdf5_get_s_all", [], CType.hid_t,
      CStmt.ret (CExpr.constRef HConstName.H5S_ALL)⟩
  | Accessor.native_int8 =>
    ⟨"hdf5_get_native_int8", [], CType.hid_t,
      CStmt.ret (CExpr.constRef HConstName.H5T_NATIVE_INT8)⟩
  | Accessor.native_int16 =>
    ⟨"hdf5_get_native_int16", [], CType.hid_t,
      CStmt.ret (CExpr.constRef HConstName.H5T_NATIVE_INT16)⟩
  | Accessor.native_int32 =>
    ⟨"hdf5_get_native_int32", [], CType.hid_t,
      CStmt.ret (CExpr.constRef HConstName.H5T_NATIVE_INT32)⟩
  | Accessor.native_int64 =>
    ⟨"hdf5_get_native_int64", [], CType.hid_t,
      CStmt.ret (CExpr.constRef HConstName.H5T_NATIVE_INT64)⟩
  | Accessor.native_uint8 =>
    ⟨"hdf5_get_native_uint8", [], CType.hid_t,
      CStmt.ret (CExpr.constRef HConstName.H5T_NATIVE_UINT8)⟩
  | Accessor.native_uint16 =>
    ⟨"hdf5_get_native_uint16", [], CType.hid_t,
      CStmt.ret (CExpr.constRef HConstName.H5T_NATIVE_UINT16)⟩
  | Accessor.native_uint32 =>
    ⟨"hdf5_get_native_uint32", [], CType.hid_t,
      CStmt.ret (CExpr.constRef HConstName.H5T_NATIVE_UINT32)⟩
  | Accessor.native_uint64 =>
    ⟨"hdf5_get_native_uint64", [], CType.hid_t,
      CStmt.ret (CExpr.constRef HConstName.H5T_NATIVE_UINT64)⟩
  | Accessor.native_float =>
    ⟨"hdf5_get_native_float", [], CType.hid_t,
      CStmt.ret (CExpr.constRef HConstName.H5T_NATIVE_FLOAT)⟩
  | Accessor.native_double =>
    ⟨"hdf5_get_native_double", [], CType.hid_t,
      CStmt.ret (CExpr.constRef HConstName.H5T_NATIVE_DOUBLE)⟩
  | Accessor.native_char =>
    ⟨"hdf5_get_native_char", [], CType.hid_t,
      CStmt.ret (CExpr.constRef HConstName.H5T_NATIVE_CHAR)⟩
  | Accessor.c_s1 =>
    ⟨"hdf5_get_c_s1", [], CType.hid_t,
      CStmt.ret (CExpr.constRef HConstName.H5T_C_S1)⟩

/-- Value of an expression under an environment for the wrapped
constants. -/
def evalExpr (e : CExpr) (env : HDF5Env) : Int :=
  match e with
  | CExpr.constRef m => env m

/-- Fueled executor for the statement fragment.  Process-global state is
an arbitrary type `σ` threaded through unchanged or transformed by each
construct; running out of fuel, or a `while` loop exiting without a
`return` in a value-returning function, yields `none`.  A `while` body's
own `return` value is not propagated (no actual body contains one). -/
def exec {σ : Type} : Nat → CStmt → HDF5Env → σ → Option (Int × σ)
  | 0, _, _, _ => none
  | _ + 1, CStmt.ret e, env, s => some (evalExpr e env, s)
  | f + 1, CStmt.whileLoop c b, env, s =>
    if evalExpr c env = 0 then none
    else
      match exec f b env s with
      | none => none
      | some (_, s1) => exec f (CStmt.whileLoop c b) env s1
  | f + 1, CStmt.tailCall a, env, s => exec f (shimDecl a).body env s

/-- Calling an accessor: run its body (one unit of fuel suffices) and
apply the C `return` conversion to the declared return type. -/
def callAccessor {σ : Type} (a : Accessor) (env : HDF5Env) (s : σ) :
    Option (Int × σ) :=
  (exec 1 (shimDecl a).body env s).map
    (fun p => (truncToType (shimDecl a).retType p.1, p.2))

/-- The value an accessor returns under a given environment. -/
def accValue (a : Accessor) (env : HDF5Env) : Int :=
  truncToType (shimDecl a).retType (env (constOf a))

/-- Dispatch table into the direct shallow embedding. -/
def directValue : Accessor → HDF5Env → Int
  | Accessor.f_acc_rdonly => hdf5_get_f_acc_rdonly
  | Accessor.f_acc_rdwr => hdf5_get_f_acc_rdwr
  | Accessor.f_acc_trunc => hdf5_get_f_acc_trunc
  | Accessor.f_acc_excl => hdf5_get_f_acc_excl
  | Accessor.s_scalar => hdf5_get_s_scalar
  | Accessor.s_simple => hdf5_get_s_simple
  | Accessor.s_null => hdf5_get_s_null
  | Accessor.p_default => hdf5_get_p_default
  | Accessor.s_all => hdf5_get_s_all
  | Accessor.native_int8 => hdf5_get_native_int8
  | Accessor.native_int16 => hdf5_get_native_int16
  | Accessor.native_int32 => hdf5_get_native_int32
  | Accessor.native_int64 => hdf5_get_native_int64
  | Accessor.native_uint8 => hdf5_get_native_uint8
  | Accessor.native_uint16 => hdf5_get_native_uint16
  | Accessor.native_uint32 => hdf5_get_native_uint32
  | Accessor.native_uint64 => hdf5_get_native_uint64
  | Accessor.native_float => hdf5_get_native_float
  | Accessor.native_double => hdf5_get_native_double
  | Accessor.native_char => hdf5_get_native_char
  | Accessor.c_s1 => hdf5_get_c_s1

/-- The section of `shim.h` each accessor is declared in. -/
def categoryOf : Accessor → AccCategory
  | Accessor.f_acc_rdonly => AccCategory.fileAccessFlag
  | Accessor.f_acc_rdwr => AccCategory.fileAccessFlag
  | Accessor.f_acc_trunc => AccCategory.fileAccessFlag
  | Accessor.f_acc_excl => AccCategory.fileAccessFlag
  | Accessor.s_scalar => AccCategory.dataspaceClass
  | Accessor.s_simple => AccCategory.dataspaceClass
  | Accessor.s_null => AccCategory.dataspaceClass
  | Accessor.p_default => AccCategory.propertyList
  | Accessor.s_all => AccCategory.dataspaceSelection
  | Accessor.native_int8 => AccCategory.nativeType
  | Accessor.native_int16 => AccCategory.nativeType
  | Accessor.native_int32 => AccCategory.nativeType
  | Accessor.native_int64 => AccCategory.nativeType
  | Accessor.native_uint8 => AccCategory.nativeType
  | Accessor.native_uint16 => AccCategory.nativeType
  | Accessor.native_uint32 => AccCategory.nativeType
  | Accessor.native_uint64 => AccCategory.nativeType
  | Accessor.native_float => AccCategory.nativeType
  | Accessor.native_double => AccCategory.nativeType
  | Accessor.native_char => AccCategory.nativeType
  | Accessor.c_s1 => AccCategory.stringType

/-- The accessors in the order they appear in `shim.h`. -/
def allAccessors : List Accessor :=
  [Accessor.f_acc_rdonly, Accessor.f_acc_rdwr, Accessor.f_acc_trunc,
   Accessor.f_acc_excl, Accessor.s_scalar, Accessor.s_simple,
   Accessor.s_null, Accessor.p_default, Accessor.s_all,
   Accessor.native_int8, Accessor.native_int16, Accessor.native_int32,
   Accessor.native_int64, Accessor.native_uint8, Accessor.native_uint16,
   Accessor.native_uint32, Accessor.native_uint64, Accessor.native_float,
   Accessor.native_double, Accessor.native_char, Accessor.c_s1]

/-- Number of accessors in the given category. -/
def categoryCount (c : AccCategory) : Nat :=
  (allAccessors.filter (fun a => categoryOf a == c)).length

/-- A concrete well-typed environment with the documented values of the
compile-time HDF5 constants (flag bits, dataspace class tags, default
identifiers) and arbitrary in-range handle values for the runtime type
identifiers; used only to instantiate hypotheses at a concrete input. -/
def sampleEnv : HDF5Env := fun m =>
  match m with
  | HConstName.H5F_ACC_RDONLY => 0
  | HConstName.H5F_ACC_RDWR => 1
  | HConstName.H5F_ACC_TRUNC => 2
  | HConstName.H5F_ACC_EXCL => 4
  | HConstName.H5S_SCALAR => 0
  | HConstName.H5S_SIMPLE => 1
  | HConstName.H5S_NULL => 2
  | HConstName.H5P_DEFAULT => 0
  | HConstName.H5S_ALL => 0
  | HConstName.H5T_NATIVE_INT8 => 21
  | HConstName.H5T_NATIVE_INT16 => 22
  | HConstName.H5T_NATIVE_INT32 => 23
  | HConstName.H5T_NATIVE_INT64 => 24
  | HConstName.H5T_NATIVE_UINT8 => 25
  | HConstName.H5T_NATIVE_UINT16 => 26
  | HConstName.H5T_NATIVE_UINT32 => 27
  | HConstName.H5T_NATIVE_UINT64 => 28
  | HConstName.H5T_NATIVE_FLOAT => 29
  | HConstName.H5T_NATIVE_DOUBLE => 30
  | HConstName.H5T_NATIVE_CHAR => 31
  | HConstName.H5T_C_S1 => 50

/-- A C identifier literally of the spec's form
`get_<category>_<constant>` (nonempty category and constant parts). -/
def specGetForm (s : String) : Prop :=
  ∃ cat tl : List Char, cat ≠ [] ∧ tl ≠ [] ∧
    s.data = ("get_" : String).data ++ cat ++ '_' :: tl

/-- A C identifier of the form `hdf5_get_<category>_<constant>`: the
spec's pattern behind the shim's `hdf5_` library qualifier. -/
def hdf5GetForm (s : String) : Prop :=
  ∃ cat tl : List Char, cat ≠ [] ∧ tl ≠ [] ∧
    s.data = ("hdf5_get_" : String).data ++ cat ++ '_' :: tl

/-- Two accessor calls in sequence from one global state, pairing up the
two returned values with the final state. -/
def runPair {σ : Type} (a b : Accessor) (env : HDF5Env) (s : σ) :
    Option ((Int × Int) × σ) :=
  (callAccessor a env s).bind fun p =>
    (callAccessor b env p.2).map fun q => ((p.1, q.1), q.2)

/-- Whether a statement contains a loop. -/
def hasLoop : CStmt → Bool
  | CStmt.ret _ => false
  | CStmt.whileLoop _ _ => true
  | CStmt.tailCall _ => false

/-- Whether a statement calls another shim function. -/
def callsOther : CStmt → Bool
  | CStmt.ret _ => false
  | CStmt.whileLoop _ b => callsOther b
  | CStmt.tailCall _ => true

/- Helper lemmas shared by the claim theorems. -/

/-- Executing any accessor body returns the wrapped constant's raw value
and leaves the state unchanged, for any positive fuel. -/
theorem exec_shim_body {σ : Type} (a : Accessor) (env : HDF5Env) (s : σ)
    (f : Nat) :
    exec (f + 1) (shimDecl a).body env s = some (env (constOf a), s) := by
  cases a <;> rfl

/-- A call to any accessor returns `accValue` and leaves the state
unchanged. -/
theorem callAccessor_eq {σ : Type} (a : Accessor) (env : HDF5Env) (s : σ) :
    callAccessor a env s = some (accValue a env, s) := by
  unfold callAccessor
  rw [exec_shim_body a env s 0]
  rfl

/-- Each accessor's declared return type is the wrapped constant's native
type. -/
theorem retType_eq_native (a : Accessor) :
    (shimDecl a).retType = nativeCType (constOf a) := by
  cases a <;> rfl

/-- The C return conversion is the identity on values within the target
type's range. -/
theorem trunc_typeRange_id (t : CType) (v : Int) (h : typeRange t v) :
    truncToType t v = v := by
  cases t <;> simp only [typeRange] at h <;> simp only [truncToType] <;> omega

/-- Under a well-typed environment every accessor's value is exactly the
wrapped constant's value. -/
theorem accValue_wellTyped (a : Accessor) (env : HDF5Env)
    (h : WellTyped env) : accValue a env = env (constOf a) := by
  unfold accValue
  rw [retType_eq_native a]
  exact trunc_typeRange_id _ _ (h (constOf a))

/-- The syntactic model agrees with the direct shallow embedding. -/
theorem accValue_eq_direct (a : Accessor) (env : HDF5Env) :
    accValue a env = directValue a env := by
  cases a <;> rfl

/-- C1: every accessor returns a value bit-identical to the underlying
library constant it wraps: under any well-typed environment (any actual
HDF5 build) and from any global state, calling an accessor returns
exactly the environment's value for its wrapped constant, unchanged. -/
theorem claim1_accessor_bit_identical {σ : Type} (a : Accessor)
    (env : HDF5Env) (s : σ) (h : WellTyped env) :
    callAccessor a env s = some (env (constOf a), s) := by
  rw [callAccessor_eq a env s, accValue_wellTyped a env h]

theorem claim1_witness :
    callAccessor Accessor.native_double sampleEnv (0 : Nat) =
      some (sampleEnv (constOf Accessor.native_double), 0) :=
  claim1_accessor_bit_identical Accessor.native_double sampleEnv 0 (by decide)

/-- C2: every accessor is side-effect-free: from any process-global state
(modelled by an arbitrary state type) a call leaves the state exactly as
it was. -/
theorem claim2_no_side_effects {σ : Type} (a : Accessor) (env : HDF5Env)
    (s : σ) :
    (callAccessor a env s).map Prod.snd = some s := by
  rw [callAccessor_eq a env s]
  rfl

/-- C3: no accessor can fail at runtime: every accessor takes no
arguments (its C parameter list is `(void)`), and every call returns a
value (the error branch of the call's result is empty) with the state
untouched. -/
theorem claim3_no_failure (a : Accessor) :
    (shimDecl a).params = [] ∧
    ∀ {σ : Type} (env : HDF5Env) (s : σ),
      ∃ v : Int, callAccessor a env s = some (v, s) := by
  refine ⟨?_, fun env s => ⟨accValue a env, callAccessor_eq a env s⟩⟩
  cases a <;> rfl

/-- C4: every accessor is deterministic and idempotent within one
process: two calls to the same accessor under the same build environment
return one and the same value, whatever the global state at each call
(in particular, for repeated calls). -/
theorem claim4_deterministic {σ τ : Type} (a : Accessor) (env : HDF5Env)
    (s : σ) (t : τ) :
    ∃ v : Int, callAccessor a env s = some (v, s) ∧
      callAccessor a env t = some (v, t) :=
  ⟨accValue a env, callAccessor_eq a env s, callAccessor_eq a env t⟩

/-- C5: each accessor's declared return type is exactly the wrapped
constant's native type, and the return conversion is lossless (no
truncation or widening) on every value of that native type. -/
theorem claim5_return_type_exact (a : Accessor) :
    (shimDecl a).retType = nativeCType (constOf a) ∧
    ∀ v : Int, typeRange (nativeCType (constOf a)) v →
      truncToType (shimDecl a).retType v = v := by
  refine ⟨retType_eq_native a, fun v hv => ?_⟩
  rw [retType_eq_native a]
  exact trunc_typeRange_id _ v hv

theorem claim5_witness :
    (shimDecl Accessor.f_acc_rdonly).retType =
      nativeCType (constOf Accessor.f_acc_rdonly) ∧
    truncToType (shimDecl Accessor.f_acc_rdonly).retType 7 = 7 :=
  ⟨(claim5_return_type_exact Accessor.f_acc_rdonly).1,
   (claim5_return_type_exact Accessor.f_acc_rdonly).2 7 (by decide)⟩

/-- C6 counterexample: the claim says accessors follow the literal
naming pattern `get_<category>_<constant>`, but the very first accessor
of `shim.h` is named `hdf5_get_f_acc_rdonly`, which does not begin with
`get_`. -/
theorem claim6_counterexample :
    ¬ specGetForm (shimDecl Accessor.f_acc_rdonly).name := by
  rintro ⟨cat, tl, -, -, h⟩
  have h0 : (some 'h' : Option Char) = some 'g' := congrArg List.head? h
  exact absurd h0 (by decide)

/-- C6 (amended): every accessor's name is
`hdf5_get_<category>_<constant>`: the spec's `get_<category>_<constant>`
pattern carrying the shim's `hdf5_` library qualifier in front. -/
theorem claim6_naming_amended (a : Accessor) :
    hdf5GetForm (shimDecl a).name := by
  cases a
  case f_acc_rdonly => exact ⟨"f_acc".data, "rdonly".data, by decide, by decide, rfl⟩
  case f_acc_rdwr => exact ⟨"f_acc".data, "rdwr".data, by decide, by decide, rfl⟩
  case f_acc_trunc => exact ⟨"f_acc".data, "trunc".data, by decide, by decide, rfl⟩
  case f_acc_excl => exact ⟨"f_acc".data, "excl".data, by decide, by decide, rfl⟩
  case s_scalar => exact ⟨"s".data, "scalar".data, by decide, by decide, rfl⟩
  case s_simple => exact ⟨"s".data, "simple".data, by decide, by decide, rfl⟩
  case s_null => exact ⟨"s".data, "null".data, by decide, by decide, rfl⟩
  case p_default => exact ⟨"p".data, "default".data, by decide, by decide, rfl⟩
  case s_all => exact ⟨"s".data, "all".data, by decide, by decide, rfl⟩
  case native_int8 => exact ⟨"native".data, "int8".data, by decide, by decide, rfl⟩
  case native_int16 => exact ⟨"native".data, "int16".data, by decide, by decide, rfl⟩
  case native_int32 => exact ⟨"native".data, "int32".data, by decide, by decide, rfl⟩
  case native_int64 => exact ⟨"native".data, "int64".data, by decide, by decide, rfl⟩
  case native_uint8 => exact ⟨"native".data, "uint8".data, by decide, by decide, rfl⟩
  case native_uint16 => exact ⟨"native".data, "uint16".data, by decide, by decide, rfl⟩
  case native_uint32 => exact ⟨"native".data, "uint32".data, by decide, by decide, rfl⟩
  case native_uint64 => exact ⟨"native".data, "uint64".data, by decide, by decide, rfl⟩
  case native_float => exact ⟨"native".data, "float".data, by decide, by decide, rfl⟩
  case native_double => exact ⟨"native".data, "double".data, by decide, by decide, rfl⟩
  case native_char => exact ⟨"native".data, "char".data, by decide, by decide, rfl⟩
  case c_s1 => exact ⟨"c".data, "s1".data, by decide, by decide, rfl⟩

/-- C7 counterexample: the shim has exactly 21 accessor functions, not
25. -/
theorem claim7_counterexample :
    allAccessors.length = 21 ∧ ¬ allAccessors.length = 25 := by
  decide

/-- C7 (amended): the shim consists of exactly 21 accessors, covering
the six categories as listed: four file-access flags, three
dataspace-class tags, one default property-list identifier, one
dataspace selection marker, eleven native numeric type identifiers, and
one C-string type identifier. -/
theorem claim7_categories :
    allAccessors.Nodup ∧ (∀ a : Accessor, a ∈ allAccessors) ∧
    allAccessors.length = 21 ∧
    categoryCount AccCategory.fileAccessFlag = 4 ∧
    categoryCount AccCategory.dataspaceClass = 3 ∧
    categoryCount AccCategory.propertyList = 1 ∧
    categoryCount AccCategory.dataspaceSelection = 1 ∧
    categoryCount AccCategory.nativeType = 11 ∧
    categoryCount AccCategory.stringType = 1 := by
  decide

/-- C8: the accessor-to-constant mapping is one-to-one: each accessor's
body passes through exactly its one wrapped constant, and no two
distinct accessors wrap the same constant. -/
theorem claim8_one_to_one :
    (∀ a : Accessor,
      (shimDecl a).body = CStmt.ret (CExpr.constRef (constOf a))) ∧
    ∀ a b : Accessor, constOf a = constOf b → a = b := by
  constructor
  · intro a
    cases a <;> rfl
  · decide

theorem claim8_witness : Accessor.s_scalar = Accessor.s_scalar :=
  claim8_one_to_one.2 Accessor.s_scalar Accessor.s_scalar (by decide)

/-- C9: accessors are safe to run concurrently without locking: two
accessor calls from a common global state commute, each returns the same
value in either interleaving, and the state (hence any lock or resource
it could record) is exactly the initial one afterwards. -/
theorem claim9_concurrent_safe {σ : Type} (a b : Accessor)
    (env : HDF5Env) (s : σ) :
    ∃ va vb : Int,
      runPair a b env s = some ((va, vb), s) ∧
      runPair b a env s = some ((vb, va), s) := by
  refine ⟨accValue a env, accValue b env, ?_, ?_⟩ <;>
    simp [runPair, callAccessor_eq]

/-- C10: every accessor terminates: each body is a single return
statement with no loop and no call to another shim function, and its
execution succeeds with the minimum positive fuel (and any larger),
returning the wrapped constant's value on every call. -/
theorem claim10_termination (a : Accessor) :
    (∃ e : CExpr, (shimDecl a).body = CStmt.ret e) ∧
    hasLoop (shimDecl a).body = false ∧
    callsOther (shimDecl a).body = false ∧
    ∀ {σ : Type} (env : HDF5Env) (s : σ) (f : Nat),
      exec (f + 1) (shimDecl a).body env s = some (env (constOf a), s) := by
  refine ⟨?_, ?_, ?_, fun env s f => exec_shim_body a env s f⟩ <;>
    cases a <;> first | exact ⟨_, rfl⟩ | rfl
